import Mathlib

/-!
# Verification of the repro-build orchestration core

Shallow embedding of the Rust sources (`src/lib.rs`, `src/execute_build.rs`,
`src/execute_command.rs`, `src/container_utils.rs`, `src/logging.rs`,
`src/file_comparison.rs`) together with proofs about the embedded program.

External effects (Docker, the filesystem, wall-clock timestamps) are modelled
by explicit parameters: command execution inside the container is an oracle
`String → ExecOutcome` mapping a command line to the chunk stream and exit
code the Docker exec produces; files are explicit `Option String` contents;
timestamps are `Nat` arguments.  Logging calls never fail in the model (the
Rust code propagates logger I/O errors with `?`, but no claim concerns a
failing log write).
-/

set_option maxRecDepth 10000
set_option linter.unusedVariables false

deriving instance DecidableEq for Except

namespace ReproBuild

/-- Occurrence test on character lists: `pat` occurs somewhere in `l`. -/
def charsContain (l pat : List Char) : Bool :=
  match l with
  | [] => pat.isEmpty
  | c :: t => pat.isPrefixOf (c :: t) || charsContain t pat

/-- Substring test, modelling the Rust `str::contains` call for a pattern
string. -/
def strContains (s pat : String) : Bool :=
  charsContain s.data pat.data

/-- Number of occurrences of `pat` (counting positions where it starts)
in `l`. -/
def countOccsChars (l pat : List Char) : Nat :=
  match l with
  | [] => 0
  | c :: t => (if pat.isPrefixOf (c :: t) then 1 else 0) + countOccsChars t pat

/-- Number of occurrences of `pat` in `s` (positions where a copy of `pat`
starts). -/
def strOccurrences (s pat : String) : Nat :=
  countOccsChars s.data pat.data

/-- One-pass form of the line-ending normalization used throughout the
sources (`file_comparison.rs`, `lib.rs`, `generate_flake.rs`):
`content.replace("\r\n", "\n").replace("\r", "\n")` rewrites every CRLF
pair and every remaining lone CR to LF. -/
def normalizeCharsLE : List Char → List Char
  | [] => []
  | '\r' :: '\n' :: t => '\n' :: normalizeCharsLE t
  | '\r' :: t => '\n' :: normalizeCharsLE t
  | c :: t => c :: normalizeCharsLE t

/-- Line-ending normalization on strings. -/
def normalizeLineEndings (s : String) : String :=
  ⟨normalizeCharsLE s.data⟩

/-- ASCII whitespace test (the inputs the program trims are ASCII command
output). -/
def isAsciiWhite (c : Char) : Bool :=
  c = ' ' || c = '\t' || c = '\n' || c = '\r'

/-- Model of the Rust `str::trim` call: drop whitespace from both ends. -/
def strTrim (s : String) : String :=
  ⟨((s.data.dropWhile isAsciiWhite).reverse.dropWhile isAsciiWhite).reverse⟩

/-- Split a character list at every newline, modelling the Rust
`str::lines` iterator (the possible final empty piece and any trailing
carriage returns are immaterial to every use below, which filters for
marker words and trims). -/
def splitNewlines : List Char → List (List Char)
  | [] => [[]]
  | c :: t =>
      if c = '\n' then [] :: splitNewlines t
      else
        match splitNewlines t with
        | [] => [[c]]
        | h :: r => (c :: h) :: r

/-- The lines of a string. -/
def strLines (s : String) : List String :=
  (splitNewlines s.data).map String.mk

/-! ## `file_comparison.rs` -/

/-- Model of `files_differ` (file_comparison.rs lines 7–16): reads both files
(`none` models a read failure, which the Rust code propagates with `?`),
normalizes line endings and compares.  Returns `some true` iff the
normalized contents differ. -/
def files_differ (fs : String → Option String) (path1 path2 : String) :
    Option Bool :=
  match fs path1, fs path2 with
  | some content1, some content2 =>
      some (normalizeLineEndings content1 != normalizeLineEndings content2)
  | _, _ => none

/-! ## `execute_command.rs` -/

/-- One chunk of the Docker exec output stream
(`bollard::container::LogOutput`).  `other` covers the variants the Rust
`match` ignores with `_ => {}` (e.g. `StdIn`, `Console`). -/
inductive Chunk
  | stdout (s : String)
  | stderr (s : String)
  | other
  deriving DecidableEq

/-- Payload a chunk contributes to the captured output (stdout and stderr
chunks are treated identically by the source; other chunks contribute
nothing). -/
def chunkText : Chunk → String
  | .stdout s => s
  | .stderr s => s
  | .other => ""

/-- What the container runtime produces for one executed command: the chunk
stream in arrival order, and the exit code reported by `inspect_exec`. -/
structure ExecOutcome where
  chunks : List Chunk
  exitCode : Int
  deriving DecidableEq

/-- The `full_output` accumulation (execute_command.rs lines 39–45): every
stdout/stderr chunk is appended, in arrival order. -/
def capturedOutput (chunks : List Chunk) : String :=
  chunks.foldl (fun acc c =>
    match c with
    | .stdout s => acc ++ s
    | .stderr s => acc ++ s
    | .other => acc) ""

/-- The `error_messages` accumulation (execute_command.rs lines 47–50): chunks
whose text contains `"error:"`, trimmed. -/
def errorMessages (chunks : List Chunk) : List String :=
  chunks.filterMap fun c =>
    match c with
    | .stdout s | .stderr s =>
        if strContains s "error:" then some (strTrim s) else none
    | .other => none

/-- The `error_context` fallback (execute_command.rs lines 129–134): the lines of
the captured chunks that contain `"error"` or `"failed"`, first five. -/
def errorContext (chunks : List Chunk) : List String :=
  ((chunks.filterMap fun c =>
      match c with
      | .stdout s | .stderr s => some s
      | .other => none).flatMap strLines
    |>.filter (fun line => strContains line "error" || strContains line "failed")
    |>.take 5)

/-- The failure produced by `execute_command` on a non-zero exit code:
`message` is the `anyhow!` error value actually returned
(execute_command.rs line 144), `diagnostics` the error lines printed to the
terminal before failing (lines 120–141). -/
structure CmdFailure where
  exitCode : Int
  message : String
  diagnostics : List String
  deriving DecidableEq

/-- The diagnostic lines printed on failure (execute_command.rs lines
120–141): the first five captured `error:` chunks when any exist, else the
first five error/failed-marked lines of the full logs, trimmed at print
time. -/
def errorDiagnostics (chunks : List Chunk) : List String :=
  if errorMessages chunks ≠ [] then (errorMessages chunks).take 5
  else (errorContext chunks).map strTrim

/-- Model of `execute_command` (execute_command.rs lines 9–155), given the stream the
container produced for `cmd`.  The progress-display throttling (lines
52–105) only affects what is echoed to the terminal, never the captured
output, and is not modelled.  On exit code 0 the full captured output is
returned; otherwise the function fails with the `anyhow!` message of line
144 after surfacing diagnostics. -/
def execute_command (cmd : String) (o : ExecOutcome) : Except CmdFailure String :=
  let full_output := capturedOutput o.chunks
  if o.exitCode ≠ 0 then
    .error { exitCode := o.exitCode
             message := "Command failed with exit code " ++ toString o.exitCode
             diagnostics := errorDiagnostics o.chunks }
  else
    .ok full_output

/-! ## `logging.rs` — `BuildLogger`

The logger owns the on-disk file contents and the in-memory buffer.
Timestamps (seconds since epoch in the source) are explicit `Nat`
arguments; the `HashMap` of `log_build_config` is modelled as the
association list in the iteration order the map happens to produce. -/

structure LoggerState where
  fileContents : String
  buffer : String
  deriving DecidableEq

/-- Header written when the log file is created (logging.rs lines 39–47).
The Rust string-literal line continuations (`\` at end of line) swallow the
newline and the following indentation, so the header has no leading
spaces. -/
def logHeader (buildId : String) (timestamp : Nat) : String :=
  "=== repx Log ===\nBuild ID: " ++ buildId ++ "\nTimestamp: " ++
    toString timestamp ++ "\n=====================\n\n"

/-- Model of `BuildLogger::new` (logging.rs lines 19–54): fresh file holding only the
header, empty buffer. -/
def loggerNew (buildId : String) (timestamp : Nat) : LoggerState :=
  { fileContents := logHeader buildId timestamp, buffer := "" }

/-- The text one `log` call produces (logging.rs line 73). -/
def logEntry (timestamp : Nat) (message : String) : String :=
  "[" ++ toString timestamp ++ "] " ++ message ++ "\n"

/-- Model of `BuildLogger::log` (logging.rs lines 67–90): appends the entry to the
in-memory buffer *and* synchronously appends it to the file. -/
def loggerLog (st : LoggerState) (timestamp : Nat) (message : String) :
    LoggerState :=
  { fileContents := st.fileContents ++ logEntry timestamp message
    buffer := st.buffer ++ logEntry timestamp message }

/-- The 80-dash separator of `log_command` (logging.rs line 98). -/
def dashes80 : String := String.mk (List.replicate 80 '-')

/-- The message `log_command` builds (logging.rs lines 94–99). -/
def commandEntry (command output : String) : String :=
  "Command: " ++ command ++ "\nOutput:\n" ++ output ++ "\n" ++ dashes80 ++ "\n"

/-- Model of `BuildLogger::log_command` (logging.rs lines 93–102): delegates to
`log`. -/
def loggerLogCommand (st : LoggerState) (timestamp : Nat)
    (command output : String) : LoggerState :=
  loggerLog st timestamp (commandEntry command output)

/-- The message `log_build_config` builds (logging.rs lines 105–112). -/
def configEntry (config : List (String × String)) : String :=
  "Build Configuration:\n" ++
    String.join (config.map fun kv => "  " ++ kv.1 ++ ": " ++ kv.2 ++ "\n")

/-- Model of `BuildLogger::log_build_config` (logging.rs lines 105–113). -/
def loggerLogBuildConfig (st : LoggerState) (timestamp : Nat)
    (config : List (String × String)) : LoggerState :=
  loggerLog st timestamp (configEntry config)

/-- The message `log_build_completion` builds (logging.rs lines 117–123). -/
def completionEntry (success : Bool) : String :=
  "\n=== Build Complete ===\nStatus: " ++
    (if success then "SUCCESS" else "FAILURE") ++ "\n=====================\n"

/-- Model of `BuildLogger::log_build_completion` (logging.rs lines 116–126). -/
def loggerLogBuildCompletion (st : LoggerState) (timestamp : Nat)
    (success : Bool) : LoggerState :=
  loggerLog st timestamp (completionEntry success)

/-- Model of `BuildLogger::flush` (logging.rs lines 129–145): clones the buffer and,
if non-empty, appends the whole of it to the file.  The buffer is not
cleared. -/
def loggerFlush (st : LoggerState) : LoggerState :=
  if st.buffer = "" then st
  else { st with fileContents := st.fileContents ++ st.buffer }

/-! ## `execute_build.rs` -/

/-- Model of `parse_target` (execute_build.rs lines 7–19):
returns `(actual_target_name_for_flake, is_windows_msvc, is_static_musl)`.
Every arm returns the identifier unchanged; unknown identifiers fall to the
default arm with no special flags. -/
def parse_target (target : String) : String × Bool × Bool :=
  if target = "x86_64-linux-gnu" then (target, false, false)
  else if target = "aarch64-linux-gnu" then (target, false, false)
  else if target = "x86_64-linux-musl" then (target, false, true)
  else if target = "aarch64-linux-musl" then (target, false, true)
  else if target = "x86_64-w64-mingw32" then (target, false, false)
  else if target = "x86_64-pc-windows-msvc" then (target, true, false)
  else if target = "aarch64-w64-mingw32" then (target, false, false)
  else (target, false, false)

/-- The `sandbox_option` chosen per target (execute_build.rs line 44). -/
def sandboxOption (is_windows_msvc : Bool) : String :=
  if is_windows_msvc then "--option sandbox false" else ""

/-- First command of `execute_nix_build` (execute_build.rs line 27). -/
def createTargetDirCmd : String := "mkdir -p ./target/repro-build"

/-- The primary per-target build command (execute_build.rs lines 47–50). -/
def nixBuildCmd (sandbox_option clean_target : String) : String :=
  "nix --extra-experimental-features \x27nix-command flakes\x27 build " ++
    sandbox_option ++ " ./.repro-build#" ++ clean_target ++
    " --out-link ./result-" ++ clean_target

/-- The output-link liveness probe (execute_build.rs line 73): prints
`true` when `./result-<t>` is a symlink and not dangling, else `false`;
the probe itself exits 0 either way. -/
def checkOutputCmd (clean_target : String) : String :=
  "if [ -L ./result-" ++ clean_target ++ " ] && [ -e ./result-" ++
    clean_target ++ " ]; then echo \"true\"; else echo \"false\"; fi"

/-- Per-target output directory creation (execute_build.rs line 79). -/
def mkdirTargetCmd (clean_target : String) : String :=
  "mkdir -p ./target/repro-build/" ++ clean_target

/-- Archive-stream artifact copy (execute_build.rs lines 92–95). -/
def copyCmd (clean_target : String) : String :=
  "tar -C ./result-" ++ clean_target ++ " -cf - . | tar -C ./target/repro-build/" ++
    clean_target ++ " -xf -"

/-- Plain recursive copy fallback (execute_build.rs line 107). -/
def fallbackCopyCmd (clean_target : String) : String :=
  "cp -r ./result-" ++ clean_target ++ "/. ./target/repro-build/" ++ clean_target ++ "/"

/-- Output-link removal (execute_build.rs line 121). -/
def cleanupLinkCmd (clean_target : String) : String :=
  "rm -rf ./result-" ++ clean_target

/-- Descriptor fetch used for failure diagnosis (execute_build.rs line 62). -/
def catFlakeCmd : String := "cat .repro-build/flake.nix"

/-- Behaviour of the container for this session: what each command line
produces when executed.  One deterministic oracle per session. -/
def Oracle := String → ExecOutcome

/-- Run one command through `execute_command` against the oracle. -/
def runCmd (o : Oracle) (cmd : String) : Except CmdFailure String :=
  execute_command cmd (o cmd)

/-- One entry the driver hands to the logger (`logger.log` vs
`logger.log_command`). -/
inductive LogEvent
  | message (s : String)
  | command (cmd : String) (output : String)
  deriving DecidableEq

/-- The per-target body of the `for target in targets` loop of
`execute_nix_build` (execute_build.rs lines 36–139).  Returns whether the
target leaves `all_builds_successful` intact (`true`) and the logger
entries the iteration produces.  Faithful points worth noting:
* on build-command failure the descriptor contents are fetched and logged
  when the fetch succeeds, the success flag is cleared and the loop
  `continue`s (lines 57–69);
* when the liveness-probe invocation itself succeeds, the
    `true`/`false` output is logged but never inspected (lines 75–76);
* a failed `mkdir` logs and `continue`s without clearing the success flag
  (lines 84–88);
* copy failures fall back to `cp -r`, and neither copy nor link-removal
  failures clear the success flag (lines 97–130). -/
def processTarget (o : Oracle) (target : String) : Bool × List LogEvent :=
  let p := parse_target target
  let clean_target := p.1
  let is_windows_msvc := p.2.1
  let ev0 := [LogEvent.message ("Building for target: " ++ clean_target)]
  let nix_build_cmd := nixBuildCmd (sandboxOption is_windows_msvc) clean_target
  match runCmd o nix_build_cmd with
  | .error e =>
      let ev1 := ev0 ++
        [.message ("Build failed for target " ++ clean_target ++ ": " ++ e.message)]
      let ev2 :=
        match runCmd o catFlakeCmd with
        | .ok flake_content =>
            ev1 ++ [.message "Flake content for debugging:", .message flake_content]
        | .error _ => ev1
      (false, ev2)
  | .ok output =>
      let ev1 := ev0 ++ [LogEvent.command nix_build_cmd output]
      match runCmd o (checkOutputCmd clean_target) with
      | .ok probe_output =>
          let ev2 := ev1 ++ [LogEvent.command (checkOutputCmd clean_target) probe_output]
          let ev3 :=
            match runCmd o (mkdirTargetCmd clean_target) with
            | .error e =>
                ev2 ++ [.message ("Failed to create target directory: " ++ e.message)]
            | .ok mkdir_output =>
                let evm := ev2 ++ [LogEvent.command (mkdirTargetCmd clean_target) mkdir_output]
                let evc :=
                  match runCmd o (copyCmd clean_target) with
                  | .ok copy_output =>
                      evm ++ [LogEvent.command (copyCmd clean_target) copy_output]
                  | .error e =>
                      let evf := evm ++
                        [.message ("Failed to copy build artifacts: " ++ e.message)]
                      match runCmd o (fallbackCopyCmd clean_target) with
                      | .ok fallback_output =>
                          evf ++ [LogEvent.command (fallbackCopyCmd clean_target) fallback_output]
                      | .error _ => evf
                let evr :=
                  match runCmd o (cleanupLinkCmd clean_target) with
                  | .ok cleanup_output =>
                      evc ++ [LogEvent.command (cleanupLinkCmd clean_target) cleanup_output]
                  | .error e =>
                      evc ++ [.message ("Failed to clean up symlink: " ++ e.message)]
                evr ++ [.message ("Build successful for target: " ++ clean_target)]
          (true, ev3)
      | .error _ =>
          (false, ev1 ++ [.message ("Build produced no output for target: " ++ clean_target)])

/-- Model of `execute_nix_build` (execute_build.rs lines 21–150).  The initial
`mkdir -p ./target/repro-build` failure propagates with `?`; afterwards the
loop body runs once per target in order, the success flags are conjoined
into `all_builds_successful`, and the aggregate result is `Ok(())` exactly
when every flag survived, else the `anyhow!("Not all builds were
successful")` error. -/
def executeNixBuild (o : Oracle) (targets : List String) :
    Except String Unit × List LogEvent :=
  match runCmd o createTargetDirCmd with
  | .error e => (.error e.message, [])
  | .ok out =>
      let ev0 := [LogEvent.command createTargetDirCmd out,
        .message ("Starting build process for " ++ toString targets.length ++ " target(s)...")]
      let results := targets.map (processTarget o)
      let all_builds_successful := results.all (·.1)
      let evs := ev0 ++ (results.map (·.2)).flatten
      if all_builds_successful then
        (.ok (), evs ++ [.message "All builds completed successfully!"])
      else
        (.error "Not all builds were successful",
          evs ++ [.message "Some builds failed or produced no output"])

/-! ## `lib.rs` — flake.nix drift handling (lines 107–125) and
`check_flake_changes` (file_comparison.rs lines 19–44) -/

/-- A user-visible notice: either printed to the console (`println!`) or
appended to the session log (`logger.log`).  ANSI colour escapes of the
`println!` calls are elided; the textual content, in particular every path
a notice names, is kept verbatim. -/
inductive FlakeEvent
  | console (s : String)
  | logged (s : String)
  deriving DecidableEq

/-- Path `metadata_dir.join("flake.nix")` (lib.rs line 108). -/
def flakePath (metaDir : String) : String := metaDir ++ "/flake.nix"

/-- Path `metadata_dir.join("flake.nix.new")` (lib.rs line 109). -/
def tempFlakePath (metaDir : String) : String := metaDir ++ "/flake.nix.new"

/-- Console output of `check_flake_changes` (file_comparison.rs lines
19–44), given the persisted content (if the file exists) and the freshly
generated content. -/
def checkFlakeChangesEvents (metaDir : String) (existing : Option String)
    (generated_content : String) : List FlakeEvent :=
  match existing with
  | some existing_content =>
      if normalizeLineEndings existing_content ≠ normalizeLineEndings generated_content then
        [.console ("WARNING: Generated flake.nix differs from existing " ++ flakePath metaDir),
         .console "Differences detected in flake configuration.",
         .console "Consider reviewing the changes and updating your flake.nix if needed.",
         .console ("Generated flake.nix is available at: " ++ tempFlakePath metaDir)]
      else
        [.console "Generated flake.nix matches existing configuration."]
  | none =>
      [.console ("No existing flake.nix found at " ++ flakePath metaDir ++
        ", using generated one.")]

/-- Outcome of the flake drift-handling block. -/
structure FlakeUpdateResult where
  /-- Content of the persisted `flake.nix` afterwards. -/
  persisted : Option String
  /-- Whether `flake.nix.new` is still on disk afterwards. -/
  tempRemains : Bool
  /-- Notices emitted, in order. -/
  events : List FlakeEvent
  deriving DecidableEq

/-- The flake drift-handling block of `build_with_nix` (lib.rs lines
107–125): `generate_flake_file` has already written `generated` (which it
LF-normalized) to `flake.nix.new`; then `check_flake_changes` runs, and the
persisted file is renamed over only when it is absent or its normalized
content differs from the normalized generated content, with the matching
log line; otherwise the temp copy is removed and "Using existing" is
logged. -/
def updateFlakeFile (metaDir : String) (existing : Option String)
    (generated : String) : FlakeUpdateResult :=
  let checkEvents := checkFlakeChangesEvents metaDir existing generated
  let differs :=
    match existing with
    | none => true
    | some existing_content =>
        normalizeLineEndings existing_content ≠ normalizeLineEndings generated
  if differs then
    { persisted := some generated
      tempRemains := false
      events := checkEvents ++
        [.logged ("Updated flake.nix at " ++ flakePath metaDir)] }
  else
    { persisted := existing
      tempRemains := false
      events := checkEvents ++
        [.logged ("Using existing flake.nix at " ++ flakePath metaDir)] }

/-! ## `container_utils.rs` and the session spine of `build_with_nix` -/

/-- Model of `cleanup_container` (container_utils.rs lines 95–103): a bare
call to remove the container with force enabled, whose error — including
the daemon response when the container is already gone when the container is already gone —
propagates with `?`.  `removeOk` is whether the daemon reports success. -/
def cleanup_container (removeOk : Bool) : Except String Unit :=
  if removeOk then .ok () else .error "container removal failed"

/-- Everything external that `build_with_nix` consumes in one session.
`exec` is the Docker command oracle shared by the git-config step, the
Cargo.lock generation and `execute_nix_build`; `lockGenOk` abstracts
`generate_flake_lock` (generate_lock.rs), which fails with the first
non-zero inner exit code; `removeOk` is the container-removal outcome. -/
structure BuildWorld where
  metaDir : String
  existingFlake : Option String
  /-- Result of `generate_flake_file` (metadata or template failure ⇒ error). -/
  generatedFlake : Except Unit String
  /-- Whether `setup_container` succeeds. -/
  setupOk : Bool
  exec : Oracle
  cargoLockExists : Bool
  lockGenOk : Bool
  targets : List String
  removeOk : Bool

/-- Session-level events of `build_with_nix`, in program order.  Logger
entries of the build phase itself are modelled inside `executeNixBuild`;
here the lifecycle events the temporal claims are about are recorded. -/
inductive SessionEvent
  | logged (s : String)
  | containerCreated
  | cleanupAttempted
  | containerRemoved
  | completionLogged (success : Bool)
  | flushed
  deriving DecidableEq

/-- The git safe-directory command (lib.rs line 135). -/
def gitConfigCmd : String := "git config --global --add safe.directory /app"

/-- The Cargo.lock generation command (lib.rs line 153). -/
def cargoLockCmd : String := "cargo generate-lockfile"

/-- Model of `build_with_nix` (lib.rs lines 72–196), from descriptor generation
onward.  Filesystem bookkeeping that no claim depends on (`.gitignore`
creation, the flake.lock temp copy, permission bits) is elided; every `?`
of the source that can abort the session is modelled:
* `generate_flake_file(..)?` (line 112) — fatal before the container exists;
* `setup_container(..)?` (line 129) — fatal, nothing to tear down yet;
* git-config failure is tolerated with a logged warning (lines 136–145);
* `execute_command(cargo generate-lockfile)?` when Cargo.lock is absent
  (line 154) — fatal, propagates *after* the container was created;
* `generate_flake_lock(..)?` (line 169) — likewise fatal after creation;
* `cleanup_container(..)?` (line 187) — a removal failure propagates;
* only when removal succeeded are the completion record and flush reached
  (lines 190–192), and the captured `build_result` returned. -/
def buildWithNix (w : BuildWorld) : Except String Unit × List SessionEvent :=
  match w.generatedFlake with
  | .error _ => (.error "flake generation failed", [])
  | .ok generated =>
    let fu := updateFlakeFile w.metaDir w.existingFlake generated
    let ev0 := [SessionEvent.logged "Setting up Docker container"]
    if !w.setupOk then (.error "container setup failed", ev0)
    else
      let ev1 := ev0 ++ [SessionEvent.containerCreated,
        .logged "Configuring git safe directory in container"]
      let ev2 := ev1 ++
        (match runCmd w.exec gitConfigCmd with
         | .ok _ => []
         | .error e => [SessionEvent.logged
             ("Warning: Failed to set git safe.directory: " ++ e.message ++
              ". This might cause issues if your flake relies on git history from the source directory.")])
      let cargoStep : Except String (List SessionEvent) :=
        if w.cargoLockExists then .ok ev2
        else
          match runCmd w.exec cargoLockCmd with
          | .ok _ => .ok (ev2 ++ [.logged "Cargo.lock not found, generating it..."])
          | .error e => .error e.message
      match cargoStep with
      | .error m => (.error m, ev2)
      | .ok ev3 =>
        if !w.lockGenOk then (.error "flake.lock generation failed", ev3)
        else
          let build_result := (executeNixBuild w.exec w.targets).1
          let ev4 := ev3 ++ [SessionEvent.logged "Cleaning up container",
            .cleanupAttempted]
          match cleanup_container w.removeOk with
          | .error m => (.error m, ev4)
          | .ok _ =>
            let success := build_result.toBool
            (build_result, ev4 ++ [.containerRemoved,
              .completionLogged success, .flushed])

/-! ## Specification-side definitions and concrete scenarios

`specConcatOutput` restates, from the wording of the specification, what
the captured output of a command should be; it is compared against the
`capturedOutput` accumulation the source performs.  The remaining
definitions are concrete oracles and worlds used to evaluate the embedded
program on specific inputs. -/

/-- Specification-side description of full command output: the
concatenation, in arrival order, of the text of every stdout and stderr
chunk. -/
def specConcatOutput : List Chunk → String
  | [] => ""
  | c :: t => chunkText c ++ specConcatOutput t

/-- Whether one target leaves `all_builds_successful` intact in
`execute_nix_build`: its primary build command exits 0 and the
output-link probe invocation itself exits 0 (the probe output is never
inspected — see the dangling-link scenario below). -/
def targetSucceeded (o : Oracle) (target : String) : Bool :=
  ((o (nixBuildCmd (sandboxOption (parse_target target).2.1)
      (parse_target target).1)).exitCode == 0)
  && ((o (checkOutputCmd (parse_target target).1)).exitCode == 0)

/-- Text of a notice, whether printed or logged. -/
def flakeEventText : FlakeEvent → String
  | .console s => s
  | .logged s => s

/-- A session in which every command exits 0 but the output-link liveness
probe for the single target prints `false` (the link is dangling). -/
def danglingLinkOracle : Oracle := fun cmd =>
  if cmd = checkOutputCmd "x86_64-linux-gnu" then ⟨[.stdout "false\n"], 0⟩
  else ⟨[], 0⟩

/-- A session in which the build of the first target fails with exit 1 and
everything else exits 0. -/
def mixedOracle : Oracle := fun cmd =>
  if cmd = nixBuildCmd (sandboxOption false) "x86_64-linux-gnu" then
    ⟨[.stderr "error: e\n"], 1⟩
  else ⟨[], 0⟩

/-- A fully successful session world: one target, every command exits 0,
container removal succeeds. -/
def goodWorld : BuildWorld :=
  { metaDir := ".repx"
    existingFlake := none
    generatedFlake := .ok "flake"
    setupOk := true
    exec := fun _ => ⟨[], 0⟩
    cargoLockExists := true
    lockGenOk := true
    targets := ["x86_64-linux-gnu"]
    removeOk := true }

/-- A world in which `Cargo.lock` is absent and its generation inside the
container fails with exit 1, after the container was created. -/
def cargoFailWorld : BuildWorld :=
  { goodWorld with
    cargoLockExists := false
    exec := fun cmd => if cmd = cargoLockCmd then ⟨[], 1⟩ else ⟨[], 0⟩ }

/-- A world in which every target builds successfully but container removal
fails (equally: the container is already gone, which the Docker daemon
reports as an error). -/
def cleanupFailWorld : BuildWorld :=
  { goodWorld with removeOk := false }

/-- A two-file filesystem for the lock-comparison call site: the persisted
lock uses CRLF, the freshly generated copy LF. -/
def lockFs : String → Option String := fun p =>
  if p = ".repx/flake.lock" then some "x\r\ny"
  else if p = ".repx/flake.lock.new" then some "x\ny" else none

/-! ## Helper lemmas -/

theorem parse_target_fst (t : String) : (parse_target t).1 = t := by
  unfold parse_target; split_ifs <;> rfl

theorem capturedOutput_aux (l : List Chunk) (acc : String) :
    l.foldl (fun acc c =>
      match c with
      | .stdout s => acc ++ s
      | .stderr s => acc ++ s
      | .other => acc) acc = acc ++ specConcatOutput l := by
  induction l generalizing acc with
  | nil => simp [specConcatOutput]
  | cons c t ih =>
    cases c <;> simp [specConcatOutput, chunkText, ih, String.append_assoc]

theorem capturedOutput_eq (l : List Chunk) :
    capturedOutput l = specConcatOutput l := by
  simpa using capturedOutput_aux l ""

theorem processTarget_fst (o : Oracle) (t : String) :
    (processTarget o t).1 = targetSucceeded o t := by
  unfold processTarget targetSucceeded runCmd execute_command
  by_cases h1 : (o (nixBuildCmd (sandboxOption (parse_target t).2.1)
      (parse_target t).1)).exitCode = 0
  · by_cases h2 : (o (checkOutputCmd (parse_target t).1)).exitCode = 0
    · simp [h1, h2]
    · simp [h1, h2]
  · simp [h1]

theorem processTarget_building_mem (o : Oracle) (t : String) :
    LogEvent.message ("Building for target: " ++ t) ∈ (processTarget o t).2 := by
  simp only [processTarget]
  rw [parse_target_fst]
  repeat' split
  all_goals simp

theorem processTarget_flake_logged (o : Oracle) (t : String)
    (hb : (o (nixBuildCmd (sandboxOption (parse_target t).2.1)
        (parse_target t).1)).exitCode ≠ 0)
    (hc : (o catFlakeCmd).exitCode = 0) :
    LogEvent.message "Flake content for debugging:" ∈ (processTarget o t).2 := by
  unfold processTarget runCmd execute_command
  simp [hb, hc]

theorem executeNixBuild_fst (o : Oracle) (targets : List String)
    (hsetup : (o createTargetDirCmd).exitCode = 0) :
    (executeNixBuild o targets).1 =
      (if targets.all (fun t => targetSucceeded o t) then .ok ()
       else .error "Not all builds were successful") := by
  simp only [executeNixBuild, runCmd, execute_command, hsetup, ne_eq, not_true,
    if_false, List.all_map, Function.comp]
  split <;> simp_all
  · rename_i h
    rw [if_pos fun x hx => by rw [← processTarget_fst]; exact h x hx]
  · rename_i h
    obtain ⟨x, hx, hfalse⟩ := h
    have hc : ¬ (∀ x ∈ targets, targetSucceeded o x = true) := by
      intro hall
      have hx2 := hall x hx
      rw [← processTarget_fst, hfalse] at hx2
      exact Bool.false_ne_true hx2
    rw [if_neg hc]

theorem executeNixBuild_events_mem (o : Oracle) (targets : List String)
    (hsetup : (o createTargetDirCmd).exitCode = 0) (t : String) (ht : t ∈ targets)
    (e : LogEvent) (he : e ∈ (processTarget o t).2) :
    e ∈ (executeNixBuild o targets).2 := by
  simp only [executeNixBuild, runCmd, execute_command, hsetup, ne_eq, not_true, if_false]
  split <;> simp <;> exact Or.inr (Or.inr (Or.inl ⟨t, ht, he⟩))

/-! ## Claim theorems -/

/-- C1 (counterexample): the claim that the container is destroyed exactly
once on every exit path fails on the code.  In a session where the
container was created and `cargo generate-lockfile` then fails with exit 1,
`build_with_nix` propagates the error with no cleanup attempt and no
failure completion record: the trace holds `containerCreated` but zero
`cleanupAttempted` events and no completion entry. -/
theorem buildWithNix_fatal_error_skips_teardown_cex :
    (buildWithNix cargoFailWorld).1 = .error "Command failed with exit code 1"
    ∧ SessionEvent.containerCreated ∈ (buildWithNix cargoFailWorld).2
    ∧ (buildWithNix cargoFailWorld).2.count SessionEvent.cleanupAttempted = 0
    ∧ SessionEvent.completionLogged true ∉ (buildWithNix cargoFailWorld).2
    ∧ SessionEvent.completionLogged false ∉ (buildWithNix cargoFailWorld).2 := by
  refine ⟨by decide, by decide, by decide, by decide, by decide⟩

/-- C1 (amended): container removal is attempted at most once per session;
on the paths that reach the cleanup call — the Cargo.lock step passes
(file present or generation exits 0) and flake.lock generation succeeds —
it is attempted exactly once, with the build result (success or partial
failure) captured first, and when removal succeeds a completion record
matching the build result is logged and the build result returned.  Fatal
errors between container creation and the cleanup call (failed Cargo.lock
or flake.lock generation) propagate without teardown. -/
theorem buildWithNix_teardown_once (w : BuildWorld) :
    ((buildWithNix w).2.count SessionEvent.cleanupAttempted ≤ 1)
    ∧ (∀ g, w.generatedFlake = .ok g → w.setupOk = true →
        (w.cargoLockExists = true ∨ (w.exec cargoLockCmd).exitCode = 0) →
        w.lockGenOk = true →
        ((buildWithNix w).2.count SessionEvent.cleanupAttempted = 1
         ∧ (w.removeOk = true →
             SessionEvent.completionLogged ((executeNixBuild w.exec w.targets).1.toBool)
               ∈ (buildWithNix w).2
             ∧ (buildWithNix w).1 = (executeNixBuild w.exec w.targets).1))) := by
  unfold buildWithNix cleanup_container runCmd execute_command
  cases hg : w.generatedFlake with
  | error e => simp
  | ok g =>
    cases hs : w.setupOk
    all_goals by_cases hgit : (w.exec gitConfigCmd).exitCode = 0
    all_goals cases hcl : w.cargoLockExists
    all_goals by_cases hcargo : (w.exec cargoLockCmd).exitCode = 0
    all_goals cases hlock : w.lockGenOk
    all_goals cases hrm : w.removeOk
    all_goals simp [hs, hgit, hcl, hcargo, hlock, hrm, List.count_cons,
      List.count_append, List.count_nil, beq_iff_eq]

/-- C1 (witness): in the fully successful world the cleanup is attempted
exactly once and a success completion record is in the trace. -/
theorem buildWithNix_teardown_once_witness :
    ((buildWithNix goodWorld).2.count SessionEvent.cleanupAttempted = 1)
    ∧ SessionEvent.completionLogged true ∈ (buildWithNix goodWorld).2 := by
  obtain ⟨h1, h2⟩ := buildWithNix_teardown_once goodWorld
  obtain ⟨hc, hr⟩ := h2 "flake" rfl rfl (Or.inl rfl) rfl
  have hb : (executeNixBuild goodWorld.exec goodWorld.targets).1.toBool = true := by
    decide
  obtain ⟨hm, hres⟩ := hr rfl
  rw [hb] at hm
  exact ⟨hc, hm⟩

/-- C2 (code bug): after a single `log` call followed by `flush`, the
on-disk file holds the entry twice — once from the synchronous append in
`log` and once more from the whole-buffer append in `flush` (the buffer is
never cleared) — contradicting the claim that every entry appears exactly
once after `flush`. -/
theorem loggerFlush_duplicates_entries :
    (loggerFlush (loggerLog (loggerNew "id" 0) 5 "starting")).fileContents
      = logHeader "id" 0 ++ logEntry 5 "starting" ++ logEntry 5 "starting"
    ∧ strOccurrences
        (loggerFlush (loggerLog (loggerNew "id" 0) 5 "starting")).fileContents
        (logEntry 5 "starting") = 2 := by
  refine ⟨by decide, by decide⟩

/-- C3 (code bug): a zero-exit build whose output link is dangling is NOT
treated as a failure.  With every command exiting 0 and the liveness probe
printing `false` (dangling link), the probe output is logged but never
inspected, and `execute_nix_build` reports overall success. -/
theorem executeNixBuild_dangling_link_counted_success :
    (executeNixBuild danglingLinkOracle ["x86_64-linux-gnu"]).1 = .ok ()
    ∧ LogEvent.command (checkOutputCmd "x86_64-linux-gnu") "false\n"
        ∈ (executeNixBuild danglingLinkOracle ["x86_64-linux-gnu"]).2
    ∧ LogEvent.message "Build successful for target: x86_64-linux-gnu"
        ∈ (executeNixBuild danglingLinkOracle ["x86_64-linux-gnu"]).2 := by
  refine ⟨by decide, by decide, by decide⟩

/-- C4 (counterexample): the error returned for a non-zero exit carries the
exit code but not the original command string.  For the failing command
`cargo build --release` the returned error value is exactly the record
below, and neither its message nor its diagnostics mention the command. -/
theorem execute_command_error_lacks_command_cex :
    (execute_command "cargo build --release" ⟨[Chunk.stderr "error: oops\n"], 101⟩ =
      .error { exitCode := 101
               message := "Command failed with exit code 101"
               diagnostics := ["error: oops"] })
    ∧ strContains "Command failed with exit code 101" "cargo build --release" = false
    ∧ strContains "error: oops" "cargo build --release" = false := by
  refine ⟨by decide, by decide, by decide⟩

/-- C4 (amended): for a non-zero exit code, `execute_command` fails with an
error that carries the exact exit code, a message stating that exit code
(the command string is printed to the terminal but not carried in the
error), after surfacing at most five error-marked output lines as
diagnostics. -/
theorem execute_command_error_detail (cmd : String) (o : ExecOutcome)
    (h : o.exitCode ≠ 0) :
    execute_command cmd o = .error
      { exitCode := o.exitCode
        message := "Command failed with exit code " ++ toString o.exitCode
        diagnostics := errorDiagnostics o.chunks }
    ∧ (errorDiagnostics o.chunks).length ≤ 5 := by
  constructor
  · unfold execute_command
    rw [if_pos h]
  · unfold errorDiagnostics
    by_cases he : errorMessages o.chunks ≠ []
    · rw [if_pos he]
      exact List.length_take_le 5 _
    · rw [if_neg he, List.length_map]
      unfold errorContext
      exact List.length_take_le 5 _

/-- C4 (witness): the amended statement evaluated at a concrete failing
command. -/
theorem execute_command_error_detail_witness :
    execute_command "nix build" ⟨[Chunk.stderr "error: build failed\n"], 2⟩ = .error
      { exitCode := 2
        message := "Command failed with exit code " ++ toString (2 : Int)
        diagnostics := errorDiagnostics [Chunk.stderr "error: build failed\n"] }
    ∧ (errorDiagnostics [Chunk.stderr "error: build failed\n"]).length ≤ 5 :=
  execute_command_error_detail "nix build"
    ⟨[Chunk.stderr "error: build failed\n"], 2⟩ (by decide)

/-- C5: for a command whose exit code is 0, `execute_command` returns the
full, order-preserving concatenation of every stdout and stderr chunk, no
bytes discarded (display suppression never touches the accumulation). -/
theorem execute_command_fidelity (cmd : String) (o : ExecOutcome)
    (h : o.exitCode = 0) :
    execute_command cmd o = .ok (specConcatOutput o.chunks) := by
  unfold execute_command
  simp [h, capturedOutput_eq]

/-- C5 (witness): a zero-exit command whose chunks include a
display-suppressed `copying path` notice still returns everything, in
order. -/
theorem execute_command_fidelity_witness :
    execute_command "ls -la"
      ⟨[.stdout "copying path a\n", .other, .stderr "warning: w\n"], 0⟩
      = .ok "copying path a\nwarning: w\n" := by
  have h := execute_command_fidelity "ls -la"
    ⟨[.stdout "copying path a\n", .other, .stderr "warning: w\n"], 0⟩ rfl
  simpa [specConcatOutput, chunkText] using h

/-- C6 (counterexample): the claim that a teardown failure never overrides
the build result fails on the code.  In a world where every target builds
successfully but container removal fails (equally: the container is
already gone), `cleanup_container` propagates the error and
`build_with_nix` returns it instead of the successful build result. -/
theorem buildWithNix_cleanup_failure_masks_success_cex :
    (executeNixBuild cleanupFailWorld.exec cleanupFailWorld.targets).1 = .ok ()
    ∧ cleanup_container false = .error "container removal failed"
    ∧ (buildWithNix cleanupFailWorld).1 = .error "container removal failed"
    ∧ (buildWithNix cleanupFailWorld).1 ≠ .ok () := by
  refine ⟨by decide, by decide, by decide, by decide⟩

/-- C6 (amended): a failure of container removal — including the
already-removed case, which the daemon reports as an error and
`cleanup_container` does not special-case — propagates out of
`build_with_nix` as the session result, overriding whatever the build
produced, and the completion record and flush are skipped. -/
theorem buildWithNix_cleanup_failure_overrides (w : BuildWorld)
    (g : String) (hg : w.generatedFlake = .ok g) (hs : w.setupOk = true)
    (hcargo : w.cargoLockExists = true ∨ (w.exec cargoLockCmd).exitCode = 0)
    (hlock : w.lockGenOk = true) (hrm : w.removeOk = false) :
    (buildWithNix w).1 = .error "container removal failed"
    ∧ SessionEvent.flushed ∉ (buildWithNix w).2
    ∧ SessionEvent.completionLogged true ∉ (buildWithNix w).2
    ∧ SessionEvent.completionLogged false ∉ (buildWithNix w).2 := by
  unfold buildWithNix cleanup_container runCmd execute_command
  cases hcl : w.cargoLockExists
  · have hexit : (w.exec cargoLockCmd).exitCode = 0 := by
      rcases hcargo with h | h
      · rw [hcl] at h; cases h
      · exact h
    by_cases hgit : (w.exec gitConfigCmd).exitCode = 0 <;>
      simp [hg, hs, hgit, hcl, hexit, hlock, hrm]
  · by_cases hgit : (w.exec gitConfigCmd).exitCode = 0 <;>
      simp [hg, hs, hgit, hcl, hlock, hrm]

/-- C6 (witness): the amended statement evaluated at the concrete
cleanup-failure world. -/
theorem buildWithNix_cleanup_failure_overrides_witness :
    (buildWithNix cleanupFailWorld).1 = .error "container removal failed"
    ∧ SessionEvent.flushed ∉ (buildWithNix cleanupFailWorld).2 := by
  obtain ⟨h1, h2, h3, h4⟩ := buildWithNix_cleanup_failure_overrides
    cleanupFailWorld "flake" rfl rfl (Or.inl rfl) rfl rfl
  exact ⟨h1, h2⟩

/-- C7: targets are processed independently in caller-supplied order.
Given that the initial output-root creation succeeds: the session result is
`Ok(())` iff every requested target succeeded (its build command and probe
invocation exit 0), otherwise the aggregate error is returned; every
target is attempted (a `Building for target` entry is logged for each);
and a target whose build fails has the descriptor contents fetched and
logged when the fetch succeeds, after which the loop continues. -/
theorem executeNixBuild_partial_failure_isolation (o : Oracle) (targets : List String)
    (hsetup : (o createTargetDirCmd).exitCode = 0) :
    ((executeNixBuild o targets).1 = .ok () ↔
      ∀ t ∈ targets, targetSucceeded o t = true)
    ∧ ((executeNixBuild o targets).1 = .error "Not all builds were successful" ↔
      ¬ ∀ t ∈ targets, targetSucceeded o t = true)
    ∧ (∀ t ∈ targets,
        LogEvent.message ("Building for target: " ++ t) ∈ (executeNixBuild o targets).2)
    ∧ (∀ t ∈ targets,
        (o (nixBuildCmd (sandboxOption (parse_target t).2.1)
            (parse_target t).1)).exitCode ≠ 0 →
        (o catFlakeCmd).exitCode = 0 →
        LogEvent.message "Flake content for debugging:" ∈ (executeNixBuild o targets).2) := by
  have hfst := executeNixBuild_fst o targets hsetup
  have hmem1 : ∀ t ∈ targets,
      LogEvent.message ("Building for target: " ++ t) ∈ (executeNixBuild o targets).2 :=
    fun t ht => executeNixBuild_events_mem o targets hsetup t ht _
      (processTarget_building_mem o t)
  have hmem2 : ∀ t ∈ targets,
      (o (nixBuildCmd (sandboxOption (parse_target t).2.1)
          (parse_target t).1)).exitCode ≠ 0 →
      (o catFlakeCmd).exitCode = 0 →
      LogEvent.message "Flake content for debugging:" ∈ (executeNixBuild o targets).2 :=
    fun t ht hb hc => executeNixBuild_events_mem o targets hsetup t ht _
      (processTarget_flake_logged o t hb hc)
  refine ⟨?_, ?_, hmem1, hmem2⟩
  · by_cases hall : ∀ t ∈ targets, targetSucceeded o t = true
    · rw [hfst, if_pos (List.all_eq_true.mpr hall)]
      exact ⟨fun _ => hall, fun _ => rfl⟩
    · rw [hfst, if_neg (fun hc => hall (List.all_eq_true.mp hc))]
      exact ⟨fun h => Except.noConfusion h, fun hy => absurd hy hall⟩
  · by_cases hall : ∀ t ∈ targets, targetSucceeded o t = true
    · rw [hfst, if_pos (List.all_eq_true.mpr hall)]
      exact ⟨fun h => Except.noConfusion h, fun hno => absurd hall hno⟩
    · rw [hfst, if_neg (fun hc => hall (List.all_eq_true.mp hc))]
      exact ⟨fun _ => hall, fun _ => rfl⟩

/-- C7 (witness): against `mixedOracle`, both targets of the two-target
session are attempted — the first fails, the second succeeds — and the
aggregate result is the failure error. -/
theorem executeNixBuild_partial_failure_isolation_witness :
    LogEvent.message ("Building for target: " ++ "x86_64-linux-gnu")
      ∈ (executeNixBuild mixedOracle ["x86_64-linux-gnu", "aarch64-linux-gnu"]).2
    ∧ LogEvent.message ("Building for target: " ++ "aarch64-linux-gnu")
      ∈ (executeNixBuild mixedOracle ["x86_64-linux-gnu", "aarch64-linux-gnu"]).2
    ∧ (executeNixBuild mixedOracle ["x86_64-linux-gnu", "aarch64-linux-gnu"]).1
      = .error "Not all builds were successful" := by
  have h := executeNixBuild_partial_failure_isolation mixedOracle
    ["x86_64-linux-gnu", "aarch64-linux-gnu"] (by decide)
  refine ⟨h.2.2.1 "x86_64-linux-gnu" (by simp),
    h.2.2.1 "aarch64-linux-gnu" (by simp), ?_⟩
  exact h.2.1.mpr (by decide)

/-- C8 (counterexample): the claim that a change notice naming both paths
is logged whenever the persisted copy is absent or differs fails on the
code.  With no persisted `flake.nix`, the file is created from the
generated content but no emitted notice — printed or logged — names the
generated temporary path. -/
theorem updateFlakeFile_missing_both_path_notice_cex :
    (updateFlakeFile ".repx" none "G").persisted = some "G"
    ∧ ((updateFlakeFile ".repx" none "G").events.all fun ev =>
        !(strContains (flakeEventText ev) (tempFlakePath ".repx"))) = true := by
  refine ⟨by decide, by decide⟩

/-- C8 (amended): regeneration is always attempted, the temporary copy
never remains, and: if the persisted copy exists and matches after
line-ending normalization it is left untouched, with `Using existing`
logged; if it exists and differs, it is replaced by the generated content,
a console warning names the persisted path, a console notice names the
generated temporary path, and an update notice naming the persisted path
is logged; if it is absent, it is created from the generated content with
an update notice naming only the persisted path. -/
theorem updateFlakeFile_spec (metaDir : String) (existing : Option String)
    (generated : String) :
    (updateFlakeFile metaDir existing generated).tempRemains = false
    ∧ (∀ e, existing = some e →
        normalizeLineEndings e = normalizeLineEndings generated →
        (updateFlakeFile metaDir existing generated).persisted = some e
        ∧ FlakeEvent.logged ("Using existing flake.nix at " ++ flakePath metaDir)
            ∈ (updateFlakeFile metaDir existing generated).events)
    ∧ (∀ e, existing = some e →
        normalizeLineEndings e ≠ normalizeLineEndings generated →
        (updateFlakeFile metaDir existing generated).persisted = some generated
        ∧ FlakeEvent.console
            ("WARNING: Generated flake.nix differs from existing " ++ flakePath metaDir)
            ∈ (updateFlakeFile metaDir existing generated).events
        ∧ FlakeEvent.console
            ("Generated flake.nix is available at: " ++ tempFlakePath metaDir)
            ∈ (updateFlakeFile metaDir existing generated).events
        ∧ FlakeEvent.logged ("Updated flake.nix at " ++ flakePath metaDir)
            ∈ (updateFlakeFile metaDir existing generated).events)
    ∧ (existing = none →
        (updateFlakeFile metaDir existing generated).persisted = some generated
        ∧ FlakeEvent.logged ("Updated flake.nix at " ++ flakePath metaDir)
            ∈ (updateFlakeFile metaDir existing generated).events) := by
  unfold updateFlakeFile checkFlakeChangesEvents
  cases existing with
  | none => simp
  | some e =>
    by_cases h : normalizeLineEndings e ≠ normalizeLineEndings generated
    · simp [h]
    · simp [h]

/-- C8 (witness): a persisted copy differing only in line endings is left
untouched and `Using existing` is logged. -/
theorem updateFlakeFile_spec_witness :
    (updateFlakeFile ".repx" (some "A\r\n") "A\n").persisted = some "A\r\n"
    ∧ FlakeEvent.logged ("Using existing flake.nix at " ++ flakePath ".repx")
        ∈ (updateFlakeFile ".repx" (some "A\r\n") "A\n").events :=
  (updateFlakeFile_spec ".repx" (some "A\r\n") "A\n").2.1 "A\r\n" rfl (by decide)

/-- C9: target classification is a static lookup that returns the
identifier unchanged, marks exactly `x86_64-pc-windows-msvc` as requiring
unsandboxed execution (and only then does the sandbox option become
`--option sandbox false`), marks exactly the two musl identifiers as
static-musl, and gives every other identifier — known or unknown — the
default flags rather than rejecting it. -/
theorem parse_target_static_lookup (target : String) :
    (parse_target target).1 = target
    ∧ ((parse_target target).2.1 = true ↔ target = "x86_64-pc-windows-msvc")
    ∧ ((parse_target target).2.2 = true ↔
        (target = "x86_64-linux-musl" ∨ target = "aarch64-linux-musl"))
    ∧ (sandboxOption (parse_target target).2.1 = "--option sandbox false" ↔
        target = "x86_64-pc-windows-msvc")
    ∧ (sandboxOption (parse_target target).2.1 = "" ↔
        target ≠ "x86_64-pc-windows-msvc") := by
  unfold parse_target sandboxOption
  split_ifs <;> simp_all

/-- C10: `files_differ` is symmetric on readable files, and reports no
difference exactly when the contents agree after line-ending
normalization — so the argument order at the lock-comparison call site
cannot change which pairs are reported as differing. -/
theorem files_differ_props (fs : String → Option String)
    (a b ca cb : String) (ha : fs a = some ca) (hb : fs b = some cb) :
    files_differ fs a b = files_differ fs b a
    ∧ (files_differ fs a b = some false ↔
        normalizeLineEndings ca = normalizeLineEndings cb) := by
  have hab : files_differ fs a b
      = some (normalizeLineEndings ca != normalizeLineEndings cb) := by
    unfold files_differ; rw [ha, hb]
  have hba : files_differ fs b a
      = some (normalizeLineEndings cb != normalizeLineEndings ca) := by
    unfold files_differ; rw [hb, ha]
  rw [hab, hba]
  constructor
  · simp only [Option.some.injEq]
    rw [Bool.eq_iff_iff]
    simp only [bne_iff_ne]
    exact ne_comm
  · simp [bne]

/-- C10 (witness): on the lock-file pair differing only by CRLF versus LF,
both argument orders agree and no difference is reported. -/
theorem files_differ_props_witness :
    files_differ lockFs ".repx/flake.lock" ".repx/flake.lock.new"
      = files_differ lockFs ".repx/flake.lock.new" ".repx/flake.lock"
    ∧ (files_differ lockFs ".repx/flake.lock" ".repx/flake.lock.new" = some false ↔
        normalizeLineEndings "x\r\ny" = normalizeLineEndings "x\ny") :=
  files_differ_props lockFs ".repx/flake.lock" ".repx/flake.lock.new"
    "x\r\ny" "x\ny" rfl rfl

end ReproBuild
